import Mathlib

/-!
# The "General" page of the connection editor (`page-general.c`)

A shallow embedding of `populate_ui`, `finish_setup` and `ui_to_setting` from
`src/connection-editor/page-general.c`, together with the properties of the
firewall-zone and dependent-VPN selectors.

Modelling conventions.

* A C string that may be `NULL` is an `Option String`; a `NULL`-terminated
  `char **` that may itself be `NULL` is an `Option (List String)`.
* `guint32 idx, combo_idx` are natural numbers.  The zone array arrives in one
  D-Bus message (at most 2^27 bytes) and the connection list is a list of live
  objects, so neither counter can reach 2^31 and no wrap-around takes place.
* The GTK widgets are reduced to the state the page reads back: the rows of a
  combo box, its active row, its sensitivity, and the state of the toggle.
* `_("Default")` is the message id itself (the untranslated locale).
-/

namespace PageGeneral

/-! ## Data model -/

/-- The two properties of `NMSettingConnection` the page touches. -/
structure NMSettingConnection where
  zone : Option String
  secondaries : List String
deriving DecidableEq, Repr

/-- What the page reads of a known connection: `nm_connection_get_id`,
`nm_connection_get_uuid` and the connection type tested by
`nm_connection_is_type`. -/
structure NMConnection where
  id : String
  uuid : String
  type : String
deriving DecidableEq, Repr

/-- A `GtkComboBoxText`: its rows, the active row (`none` stands for the index -1) and
whether the widget is sensitive. -/
structure GtkComboBoxText where
  items : List String
  active : Option Nat
  sensitive : Bool
deriving DecidableEq, Repr

/-- A `GtkComboBox` over an external model: the active row and sensitivity. -/
structure GtkComboBox where
  active : Option Nat
  sensitive : Bool
deriving DecidableEq, Repr

/-- Rows of `dependent_vpn_store`: column `COL_ID` and column `COL_UUID`. -/
abbrev GtkListStore := List (String × String)

/-- The private data of `CEPageGeneral` (`remote_settings` and the firewalld
answer are passed to the functions that consult them). -/
structure CEPageGeneralPrivate where
  setting : NMSettingConnection
  firewall_zone : GtkComboBoxText
  dependent_vpn_checkbox : Bool
  dependent_vpn : GtkComboBox
  dependent_vpn_store : GtkListStore
deriving DecidableEq, Repr

/-! ## Constants and library calls -/

/-- The label of the synthetic first row, `#define FIREWALL_ZONE_DEFAULT _("Default")`. -/
def FIREWALL_ZONE_DEFAULT : String := "Default"

/-- The name of the VPN setting in libnm, `NM_SETTING_VPN_SETTING_NAME`. -/
def NM_SETTING_VPN_SETTING_NAME : String := "vpn"

/-- The test `g_strcmp0 (a, b) == 0`: `NULL` equals only `NULL`, two strings
are compared by content. -/
def g_strcmp0_eq0 (a b : Option String) : Bool :=
  match a, b with
  | none, none => true
  | some x, some y => x == y
  | _, _ => false

/-- Accessor `nm_setting_connection_get_zone`. -/
def nm_setting_connection_get_zone (s : NMSettingConnection) : Option String :=
  s.zone

/-- Accessor `nm_setting_connection_get_secondary (setting, idx)`: the entry at
`idx`, `NULL` when there is none. -/
def nm_setting_connection_get_secondary (s : NMSettingConnection) (idx : Nat) :
    Option String :=
  s.secondaries[idx]?

/-- Accessor `nm_setting_connection_get_num_secondaries`. -/
def nm_setting_connection_get_num_secondaries (s : NMSettingConnection) : Nat :=
  s.secondaries.length

/-- Mutator `nm_setting_connection_add_secondary`: the library refuses an
empty UUID and a UUID that is already listed, leaving the setting as it is;
any other UUID is appended. -/
def nm_setting_connection_add_secondary (s : NMSettingConnection) (uuid : String) :
    NMSettingConnection :=
  if uuid = "" then s
  else if uuid ∈ s.secondaries then s
  else { s with secondaries := s.secondaries ++ [uuid] }

/-- Predicate `nm_connection_is_type`. -/
def nm_connection_is_type (c : NMConnection) (t : String) : Bool :=
  c.type == t

/-- Widget call `gtk_combo_box_text_append_text`: one more row at the end. -/
def gtk_combo_box_text_append_text (combo : GtkComboBoxText) (text : String) :
    GtkComboBoxText :=
  { combo with items := combo.items ++ [text] }

/-- Widget call `gtk_combo_box_set_active` seen from the model with `n` rows:
an index that names a row becomes the active row, any other leaves no row
active. -/
def gtk_combo_box_set_active (n : Nat) (index : Nat) : Option Nat :=
  if index < n then some index else none

/-- Widget call `gtk_combo_box_text_get_active_text`: the text of the active
row, `NULL` when no row is active. -/
def gtk_combo_box_text_get_active_text (combo : GtkComboBoxText) : Option String :=
  match combo.active with
  | some i => combo.items[i]?
  | none => none

/-- Widget call `gtk_combo_box_get_active_iter` followed by
`gtk_tree_model_get (..., COL_UUID, &uuid, -1)`: the UUID column of the active
row, when there is one. -/
def gtk_combo_box_get_active_uuid (combo : GtkComboBox) (store : GtkListStore) :
    Option String :=
  match combo.active with
  | some i => (store[i]?).map Prod.snd
  | none => none

/-! ## `populate_ui` -/

/-- The loop of `populate_ui` over the zones of firewalld (lines 181-189):
every zone becomes a row, and `combo_idx` is set to `idx + 1` at every zone
equal to `s_zone`.  Returns the combo box, `idx` and `combo_idx` at loop exit. -/
def populate_zone_loop (s_zone : Option String) :
    List String → GtkComboBoxText → Nat → Nat → GtkComboBoxText × Nat × Nat
  | [], combo, idx, combo_idx => (combo, idx, combo_idx)
  | z :: rest, combo, idx, combo_idx =>
      populate_zone_loop s_zone rest (gtk_combo_box_text_append_text combo z) (idx + 1)
        (if g_strcmp0_eq0 s_zone (some z) then idx + 1 else combo_idx)

/-- The firewall-zone part of `populate_ui` (lines 169-210).  `zones` is the
answer of `get_zones_from_firewall`, `none` for `NULL`.  Returns the page and
the `combo_idx` handed to `gtk_combo_box_set_active`. -/
def populate_ui_zone (priv : CEPageGeneralPrivate) (zones : Option (List String)) :
    CEPageGeneralPrivate × Nat :=
  let s_zone := nm_setting_connection_get_zone priv.setting
  let combo0 := gtk_combo_box_text_append_text priv.firewall_zone FIREWALL_ZONE_DEFAULT
  let loop : GtkComboBoxText × Nat × Nat :=
    match zones with
    | none => (combo0, 0, 0)
    | some zs => populate_zone_loop s_zone zs combo0 0 0
  let after : GtkComboBoxText × Nat :=
    match s_zone with
    | some z =>
        if loop.2.2 = 0 then (gtk_combo_box_text_append_text loop.1 z, loop.2.1 + 1)
        else (loop.1, loop.2.2)
    | none => (loop.1, loop.2.2)
  let combo := { after.1 with
    active := gtk_combo_box_set_active after.1.items.length after.2,
    sensitive := zones.isSome }
  ({ priv with firewall_zone := combo }, after.2)

/-- The loop of `populate_ui` over the known connections (lines 215-227):
a connection that is not a VPN is skipped; a VPN becomes a row `(id, uuid)`,
`combo_idx` is set to `idx` when its UUID equals `vpn_uuid`, and only then
`idx` advances. -/
def populate_vpn_loop (vpn_uuid : Option String) :
    List NMConnection → GtkListStore → Nat → Nat → GtkListStore × Nat × Nat
  | [], store, idx, combo_idx => (store, idx, combo_idx)
  | c :: rest, store, idx, combo_idx =>
      if !nm_connection_is_type c NM_SETTING_VPN_SETTING_NAME then
        populate_vpn_loop vpn_uuid rest store idx combo_idx
      else
        populate_vpn_loop vpn_uuid rest (store ++ [(c.id, c.uuid)]) (idx + 1)
          (if g_strcmp0_eq0 vpn_uuid (some c.uuid) then idx else combo_idx)

/-- The dependent-VPN part of `populate_ui` (lines 212-229).  `con_list` is the
answer of `nm_remote_settings_list_connections`.  Returns the page and the
`combo_idx` handed to `gtk_combo_box_set_active`. -/
def populate_ui_vpn (priv : CEPageGeneralPrivate) (con_list : List NMConnection) :
    CEPageGeneralPrivate × Nat :=
  let vpn_uuid := nm_setting_connection_get_secondary priv.setting 0
  let loop := populate_vpn_loop vpn_uuid con_list priv.dependent_vpn_store 0 0
  ({ priv with
      dependent_vpn_store := loop.1,
      dependent_vpn := { priv.dependent_vpn with
        active := gtk_combo_box_set_active loop.1.length loop.2.2 } },
   loop.2.2)

/-- The whole of `populate_ui`: the zone part, then the VPN part.  The closing
`stuff_changed (NULL, self)` only notifies the editor through
`ce_page_changed` and leaves the page as it is. -/
def populate_ui (priv : CEPageGeneralPrivate) (zones : Option (List String))
    (con_list : List NMConnection) : CEPageGeneralPrivate :=
  (populate_ui_vpn (populate_ui_zone priv zones).1 con_list).1

/-! ## `finish_setup`, `ce_page_general_new`, `ui_to_setting` -/

/-- The handler `finish_setup`: nothing on error; otherwise `populate_ui`, then
the toggle and the sensitivity of the VPN combo follow
`!!nm_setting_connection_get_num_secondaries`. -/
def finish_setup (priv : CEPageGeneralPrivate) (error : Bool)
    (zones : Option (List String)) (con_list : List NMConnection) :
    CEPageGeneralPrivate :=
  if error then priv
  else
    let p := populate_ui priv zones con_list
    let any_dependent_vpn : Bool := nm_setting_connection_get_num_secondaries p.setting != 0
    { p with
      dependent_vpn_checkbox := any_dependent_vpn,
      dependent_vpn := { p.dependent_vpn with sensitive := any_dependent_vpn } }

/-- Modelled from the spec: the initial rows of `dependent_vpn_model` and the
initial state of `dependent_vpn_checkbox` and `dependent_vpn_combo`, which the
builder file `ce-page-general.ui` declares and which is not among the sources.
The spec has the VPN candidate list computed on load and holding nothing but
the VPN profiles, so the list store starts empty, with no active row and the
toggle off.  The zone combo box is the fresh, empty one that
`general_private_init` (called by `ce_page_general_new`) creates with
`gtk_combo_box_text_new`. -/
def general_private_init (setting : NMSettingConnection) : CEPageGeneralPrivate :=
  { setting := setting,
    firewall_zone := { items := [], active := none, sensitive := true },
    dependent_vpn_checkbox := false,
    dependent_vpn := { active := none, sensitive := true },
    dependent_vpn_store := [] }

/-- The function `ui_to_setting` (lines 295-324): the active zone text, turned
into `NULL` when it is the default label, becomes the zone; the secondaries
are cleared and, when the toggle is on and a VPN row is active, the UUID of
that row is added. -/
def ui_to_setting (priv : CEPageGeneralPrivate) : CEPageGeneralPrivate :=
  let zone0 := gtk_combo_box_text_get_active_text priv.firewall_zone
  let zone := if g_strcmp0_eq0 zone0 (some FIREWALL_ZONE_DEFAULT) then none else zone0
  let s1 : NMSettingConnection := { priv.setting with zone := zone }
  let uuid : Option String :=
    if priv.dependent_vpn_checkbox then
      gtk_combo_box_get_active_uuid priv.dependent_vpn priv.dependent_vpn_store
    else none
  let s2 : NMSettingConnection := { s1 with secondaries := [] }
  let s3 : NMSettingConnection :=
    match uuid with
    | some u => nm_setting_connection_add_secondary s2 u
    | none => s2
  { priv with setting := s3 }

/-! ## The reconciler operations, read off a freshly created page -/

/-- Result of the zone part of loading a profile. -/
structure ZoneCandidates where
  candidates : List String
  selected_index : Nat
  available : Bool
deriving DecidableEq, Repr

/-- Result of the VPN part of loading a profile. -/
structure VpnCandidates where
  candidates : List (String × String)
  selected_index : Nat
deriving DecidableEq, Repr

/-- The zone part of `populate_ui` run on a fresh page whose setting holds
`current_zone`: the rows of the combo box, the index passed to
`gtk_combo_box_set_active`, and the sensitivity of the combo box. -/
def build_zone_candidates (current_zone : Option String)
    (directory_zones : Option (List String)) : ZoneCandidates :=
  let r := populate_ui_zone (general_private_init { zone := current_zone, secondaries := [] })
    directory_zones
  { candidates := r.1.firewall_zone.items,
    selected_index := r.2,
    available := r.1.firewall_zone.sensitive }

/-- The VPN part of `populate_ui` run on a fresh page whose setting has
`secondary_uuid` as its first secondary (none when absent): the rows of the
list store and the index passed to `gtk_combo_box_set_active`. -/
def build_vpn_candidates (secondary_uuid : Option String)
    (profiles : List NMConnection) : VpnCandidates :=
  let r := populate_ui_vpn
    (general_private_init { zone := none, secondaries := secondary_uuid.toList }) profiles
  { candidates := r.1.dependent_vpn_store,
    selected_index := r.2 }

/-- Loading a profile into a fresh page and saving it without an edit:
`ce_page_general_new`, `finish_setup` without error, `ui_to_setting`. -/
def load_then_save (profile : NMSettingConnection) (zones : Option (List String))
    (con_list : List NMConnection) : NMSettingConnection :=
  (ui_to_setting (finish_setup (general_private_init profile) false zones con_list)).setting

/-! ## Auxiliary: the index bookkeeping shared by the two loops -/

/-- Proof device, not part of the program: scanning `xs` from position `idx`,
the position of every element satisfying `p` overwrites `combo_idx`. -/
def scan_matches {α : Type} (p : α → Bool) : List α → Nat → Nat → Nat
  | [], _, combo_idx => combo_idx
  | x :: xs, idx, combo_idx => scan_matches p xs (idx + 1) (if p x then idx else combo_idx)

/-- The VPN rows of a connection list, in order: the filter the VPN loop
applies, written with list combinators. -/
def vpn_rows (con_list : List NMConnection) : GtkListStore :=
  (con_list.filter (fun c => nm_connection_is_type c NM_SETTING_VPN_SETTING_NAME)).map
    (fun c => (c.id, c.uuid))

theorem scan_matches_none {α : Type} (p : α → Bool) (xs : List α) (idx ci : Nat)
    (h : ∀ x ∈ xs, p x = false) : scan_matches p xs idx ci = ci := by
  induction xs generalizing idx ci with
  | nil => rfl
  | cons x xs ih =>
    have hx : p x = false := h x (List.mem_cons_self x xs)
    simp only [scan_matches, hx]
    exact ih (idx + 1) ci (fun y hy => h y (List.mem_cons_of_mem x hy))

theorem scan_matches_some {α : Type} (p : α → Bool) (xs : List α) (idx ci : Nat)
    (h : ∃ x ∈ xs, p x = true) :
    ∃ k, k < xs.length ∧ (∃ x, xs[k]? = some x ∧ p x = true) ∧
      (∀ q x, k < q → xs[q]? = some x → p x = false) ∧
      scan_matches p xs idx ci = idx + k := by
  induction xs generalizing idx ci with
  | nil => obtain ⟨x, hx, _⟩ := h; cases hx
  | cons y ys ih =>
    by_cases hys : ∃ x ∈ ys, p x = true
    · obtain ⟨k, hk, hat, hlast, hscan⟩ := ih (idx + 1) (if p y then idx else ci) hys
      refine ⟨k + 1, by simpa using hk, by simpa using hat, ?_, ?_⟩
      · intro q x hq hx
        obtain ⟨q', rfl⟩ : ∃ q', q = q' + 1 := ⟨q - 1, by omega⟩
        exact hlast q' x (by omega) (by simpa using hx)
      · simp only [scan_matches, hscan]; omega
    · have hnone : ∀ x ∈ ys, p x = false := by
        intro x hx
        cases hpx : p x with
        | false => rfl
        | true => exact absurd ⟨x, hx, hpx⟩ hys
      have hy : p y = true := by
        obtain ⟨x, hx, hpx⟩ := h
        rcases List.mem_cons.mp hx with rfl | hx'
        · exact hpx
        · rw [hnone x hx'] at hpx; cases hpx
      refine ⟨0, by simp, ⟨y, by simp, hy⟩, ?_, ?_⟩
      · intro q x hq hx
        obtain ⟨q', rfl⟩ : ∃ q', q = q' + 1 := ⟨q - 1, by omega⟩
        have hx' : ys[q']? = some x := by simpa using hx
        exact hnone x (List.getElem?_mem hx')
      · simp only [scan_matches, hy, if_true]
        rw [scan_matches_none p ys (idx + 1) idx hnone]; rfl

theorem populate_zone_loop_eq (s_zone : Option String) (zs : List String)
    (combo : GtkComboBoxText) (idx ci : Nat) :
    populate_zone_loop s_zone zs combo idx ci =
      ({ combo with items := combo.items ++ zs }, idx + zs.length,
        scan_matches (fun z => g_strcmp0_eq0 s_zone (some z)) zs (idx + 1) ci) := by
  induction zs generalizing combo idx ci with
  | nil => simp [populate_zone_loop, scan_matches]
  | cons z rest ih =>
    simp only [populate_zone_loop, ih, scan_matches, gtk_combo_box_text_append_text,
      List.length_cons, List.append_assoc, List.singleton_append]
    refine Prod.ext rfl (Prod.ext ?_ rfl)
    simp only; omega

theorem populate_vpn_loop_eq (vpn_uuid : Option String) (cl : List NMConnection)
    (store : GtkListStore) (idx ci : Nat) :
    populate_vpn_loop vpn_uuid cl store idx ci =
      (store ++ vpn_rows cl, idx + (vpn_rows cl).length,
        scan_matches (fun r => g_strcmp0_eq0 vpn_uuid (some r.2)) (vpn_rows cl) idx ci) := by
  induction cl generalizing store idx ci with
  | nil => simp [populate_vpn_loop, vpn_rows, scan_matches]
  | cons c rest ih =>
    by_cases hc : nm_connection_is_type c NM_SETTING_VPN_SETTING_NAME = true
    · have hrows : vpn_rows (c :: rest) = (c.id, c.uuid) :: vpn_rows rest := by
        simp [vpn_rows, hc]
      simp only [populate_vpn_loop, hc, ih, hrows, scan_matches, List.length_cons,
        List.append_assoc, List.singleton_append, Bool.not_true, Bool.false_eq_true, if_false]
      refine Prod.ext rfl (Prod.ext ?_ rfl)
      simp only; omega
    · have hc' : nm_connection_is_type c NM_SETTING_VPN_SETTING_NAME = false := by
        simpa using hc
      have hrows : vpn_rows (c :: rest) = vpn_rows rest := by
        simp [vpn_rows, hc']
      simp only [populate_vpn_loop, hc', ih, hrows, Bool.not_false, if_true]

theorem g_strcmp0_eq0_some (a b : String) :
    g_strcmp0_eq0 (some a) (some b) = true ↔ a = b := by
  simp [g_strcmp0_eq0]

theorem g_strcmp0_eq0_none (b : String) : g_strcmp0_eq0 none (some b) = false := rfl

/-- Adding a secondary never touches the zone. -/
theorem add_secondary_zone (s : NMSettingConnection) (u : String) :
    (nm_setting_connection_add_secondary s u).zone = s.zone := by
  unfold nm_setting_connection_add_secondary
  split
  · rfl
  · split <;> rfl

/-- Adding a secondary to a setting without secondaries: an empty UUID is
refused, any other becomes the single secondary. -/
theorem add_secondary_fresh (z : Option String) (u : String) :
    (nm_setting_connection_add_secondary { zone := z, secondaries := [] } u).secondaries
      = (if u = "" then [] else [u]) := by
  unfold nm_setting_connection_add_secondary
  by_cases hu : u = ""
  · simp [hu]
  · simp [hu]

/-- Closed form of the zone part of loading: the rows are the default label,
the zones of firewalld and, when the stored zone matched none of them, the
stored zone; the index is the one kept by the scan, or that of the extra row. -/
theorem build_zone_candidates_eq (cz : Option String) (dz : Option (List String)) :
    build_zone_candidates cz dz =
      match cz with
      | some z =>
          if scan_matches (fun y => g_strcmp0_eq0 (some z) (some y)) (dz.getD []) 1 0 = 0 then
            ⟨FIREWALL_ZONE_DEFAULT :: (dz.getD [] ++ [z]), (dz.getD []).length + 1, dz.isSome⟩
          else
            ⟨FIREWALL_ZONE_DEFAULT :: dz.getD [],
              scan_matches (fun y => g_strcmp0_eq0 (some z) (some y)) (dz.getD []) 1 0, dz.isSome⟩
      | none => ⟨FIREWALL_ZONE_DEFAULT :: dz.getD [], 0, dz.isSome⟩ := by
  cases dz with
  | none =>
    cases cz with
    | none => rfl
    | some z => rfl
  | some zs =>
    cases cz with
    | none =>
      have h0 : scan_matches (fun y => g_strcmp0_eq0 none (some y)) zs 1 0 = 0 :=
        scan_matches_none _ zs 1 0 (fun x _ => rfl)
      simp [build_zone_candidates, populate_ui_zone, populate_zone_loop_eq,
        general_private_init, nm_setting_connection_get_zone,
        gtk_combo_box_text_append_text, h0]
    | some z =>
      by_cases h0 : scan_matches (fun y => g_strcmp0_eq0 (some z) (some y)) zs 1 0 = 0
      · simp [build_zone_candidates, populate_ui_zone, populate_zone_loop_eq,
          general_private_init, nm_setting_connection_get_zone,
          gtk_combo_box_text_append_text, h0]
      · simp [build_zone_candidates, populate_ui_zone, populate_zone_loop_eq,
          general_private_init, nm_setting_connection_get_zone,
          gtk_combo_box_text_append_text, h0]

/-- The scan of the zone loop when the stored zone is among the zones: it
ends on one plus the last position holding the stored zone. -/
theorem scan_zone_known (z : String) (zs : List String) (h : z ∈ zs) :
    ∃ p, p < zs.length ∧ zs[p]? = some z ∧ (∀ q, p < q → zs[q]? ≠ some z) ∧
      scan_matches (fun y => g_strcmp0_eq0 (some z) (some y)) zs 1 0 = 1 + p := by
  obtain ⟨k, hk, ⟨x, hx, hpx⟩, hlast, hscan⟩ :=
    scan_matches_some (fun y => g_strcmp0_eq0 (some z) (some y)) zs 1 0
      ⟨z, h, (g_strcmp0_eq0_some z z).mpr rfl⟩
  have hxz : z = x := (g_strcmp0_eq0_some z x).mp hpx
  subst hxz
  refine ⟨k, hk, hx, ?_, hscan⟩
  intro q hq hzq
  have := hlast q z hq hzq
  rw [(g_strcmp0_eq0_some z z).mpr rfl] at this
  cases this

/-- The scan of the zone loop when the stored zone is not among the zones:
`combo_idx` stays 0. -/
theorem scan_zone_unknown (z : String) (zs : List String) (h : z ∉ zs) :
    scan_matches (fun y => g_strcmp0_eq0 (some z) (some y)) zs 1 0 = 0 := by
  apply scan_matches_none
  intro x hx
  cases hp : g_strcmp0_eq0 (some z) (some x) with
  | false => rfl
  | true => exact absurd ((g_strcmp0_eq0_some z x).mp hp ▸ hx) h

/-- The selected index of the zone part names a row of the combo box. -/
theorem build_zone_candidates_index_lt (cz : Option String) (dz : Option (List String)) :
    (build_zone_candidates cz dz).selected_index
      < (build_zone_candidates cz dz).candidates.length := by
  rw [build_zone_candidates_eq]
  cases cz with
  | none => simp
  | some z =>
    by_cases hz : z ∈ dz.getD []
    · obtain ⟨p, hp, _, _, hscan⟩ := scan_zone_known z (dz.getD []) hz
      have hne : ¬ (1 + p = 0) := by omega
      simp only [hscan, hne, if_false]
      simp only [List.length_cons]; omega
    · have hscan := scan_zone_unknown z (dz.getD []) hz
      simp only [hscan, if_true]
      simp

/-- The first row of the zone combo box is the default label. -/
theorem build_zone_candidates_head (cz : Option String) (dz : Option (List String)) :
    ∃ rest, (build_zone_candidates cz dz).candidates = FIREWALL_ZONE_DEFAULT :: rest := by
  rw [build_zone_candidates_eq]
  cases cz with
  | none => exact ⟨_, rfl⟩
  | some z =>
    by_cases h0 : scan_matches (fun y => g_strcmp0_eq0 (some z) (some y)) (dz.getD []) 1 0 = 0
    · simp only [h0, if_true]; exact ⟨_, rfl⟩
    · simp only [h0, if_false]; exact ⟨_, rfl⟩

/-! ## Properties of the zone selector -/

/-- C1: when the zones of firewalld contain the stored zone, the candidates
are the default label followed by those zones in order and nothing else (one
more than the zones), the selected index is one plus a position of the stored
zone among the zones (the last such position), and the candidate at the
selected index is the stored zone. -/
theorem build_zone_candidates_known (current_zone : String) (directory_zones : List String)
    (h : current_zone ∈ directory_zones) :
    (build_zone_candidates (some current_zone) (some directory_zones)).candidates
        = FIREWALL_ZONE_DEFAULT :: directory_zones ∧
    (build_zone_candidates (some current_zone) (some directory_zones)).candidates.length
        = 1 + directory_zones.length ∧
    (∃ p, p < directory_zones.length ∧ directory_zones[p]? = some current_zone ∧
      (∀ q, p < q → directory_zones[q]? ≠ some current_zone) ∧
      (build_zone_candidates (some current_zone) (some directory_zones)).selected_index
        = 1 + p) ∧
    (build_zone_candidates (some current_zone) (some directory_zones)).candidates[
        (build_zone_candidates (some current_zone) (some directory_zones)).selected_index]?
        = some current_zone := by
  obtain ⟨p, hp, hat, hlast, hscan⟩ := scan_zone_known current_zone directory_zones h
  have hne : ¬ (1 + p = 0) := by omega
  have hform : build_zone_candidates (some current_zone) (some directory_zones)
      = ⟨FIREWALL_ZONE_DEFAULT :: directory_zones, 1 + p, true⟩ := by
    rw [build_zone_candidates_eq]
    simp only [Option.getD_some, hscan, hne, if_false, Option.isSome_some]
  rw [hform]
  refine ⟨rfl, by simp [Nat.add_comm], ⟨p, hp, hat, hlast, rfl⟩, ?_⟩
  simp only [Nat.add_comm 1 p, List.getElem?_cons_succ, hat]

/-- C1, at the zones work, home, public with home stored. -/
theorem build_zone_candidates_known_witness :
    (build_zone_candidates (some "home") (some ["work", "home", "public"])).candidates
        = FIREWALL_ZONE_DEFAULT :: ["work", "home", "public"] ∧
    (build_zone_candidates (some "home") (some ["work", "home", "public"])).candidates.length
        = 1 + ["work", "home", "public"].length ∧
    (∃ p, p < ["work", "home", "public"].length ∧
      ["work", "home", "public"][p]? = some "home" ∧
      (∀ q, p < q → ["work", "home", "public"][q]? ≠ some "home") ∧
      (build_zone_candidates (some "home") (some ["work", "home", "public"])).selected_index
        = 1 + p) ∧
    (build_zone_candidates (some "home") (some ["work", "home", "public"])).candidates[
        (build_zone_candidates (some "home") (some ["work", "home", "public"])).selected_index]?
        = some "home" :=
  build_zone_candidates_known "home" ["work", "home", "public"] (by decide)

/-- C2: when the stored zone is not empty and the zones of firewalld do not
contain it, the candidates are the default label, those zones in order and
one final extra candidate equal to the stored zone (two more than the zones),
and the selected index is the index of that final candidate. -/
theorem build_zone_candidates_unknown (current_zone : String) (directory_zones : List String)
    (_hne : current_zone ≠ "") (h : current_zone ∉ directory_zones) :
    (build_zone_candidates (some current_zone) (some directory_zones)).candidates
        = FIREWALL_ZONE_DEFAULT :: (directory_zones ++ [current_zone]) ∧
    (build_zone_candidates (some current_zone) (some directory_zones)).candidates.length
        = 2 + directory_zones.length ∧
    (build_zone_candidates (some current_zone) (some directory_zones)).selected_index
        = (build_zone_candidates (some current_zone) (some directory_zones)).candidates.length
          - 1 ∧
    (build_zone_candidates (some current_zone) (some directory_zones)).selected_index
        = 1 + directory_zones.length ∧
    (build_zone_candidates (some current_zone) (some directory_zones)).candidates[
        (build_zone_candidates (some current_zone) (some directory_zones)).selected_index]?
        = some current_zone := by
  have hscan := scan_zone_unknown current_zone directory_zones h
  have hform : build_zone_candidates (some current_zone) (some directory_zones)
      = ⟨FIREWALL_ZONE_DEFAULT :: (directory_zones ++ [current_zone]),
          directory_zones.length + 1, true⟩ := by
    rw [build_zone_candidates_eq]
    simp only [Option.getD_some, hscan, if_true, Option.isSome_some]
  rw [hform]
  refine ⟨rfl, by simp; omega, by simp, by simp [Nat.add_comm], ?_⟩
  simp

/-- C2, at the zones work, public with the unknown zone home stored. -/
theorem build_zone_candidates_unknown_witness :
    (build_zone_candidates (some "home") (some ["work", "public"])).candidates
        = FIREWALL_ZONE_DEFAULT :: (["work", "public"] ++ ["home"]) ∧
    (build_zone_candidates (some "home") (some ["work", "public"])).candidates.length
        = 2 + ["work", "public"].length ∧
    (build_zone_candidates (some "home") (some ["work", "public"])).selected_index
        = (build_zone_candidates (some "home") (some ["work", "public"])).candidates.length
          - 1 ∧
    (build_zone_candidates (some "home") (some ["work", "public"])).selected_index
        = 1 + ["work", "public"].length ∧
    (build_zone_candidates (some "home") (some ["work", "public"])).candidates[
        (build_zone_candidates (some "home") (some ["work", "public"])).selected_index]?
        = some "home" :=
  build_zone_candidates_unknown "home" ["work", "public"] (by decide) (by decide)

/-- C3, refuted as stated: with firewalld unreachable and the zone home
stored, the candidates are the default label and home, and home (index 1) is
selected, not the single default entry at index 0. -/
theorem build_zone_candidates_absent_counterexample :
    build_zone_candidates (some "home") none = ⟨["Default", "home"], 1, false⟩ ∧
    (build_zone_candidates (some "home") none).candidates ≠ ["Default"] ∧
    (build_zone_candidates (some "home") none).selected_index ≠ 0 := by
  decide

/-- C3, amended: with firewalld unreachable the selector is unavailable; when
no zone is stored the candidates are the default label alone with index 0
selected, and when a zone is stored the candidates are the default label
followed by the stored zone, with the stored zone (index 1) selected. -/
theorem build_zone_candidates_absent (current_zone : Option String) :
    build_zone_candidates current_zone none =
      match current_zone with
      | none => ⟨[FIREWALL_ZONE_DEFAULT], 0, false⟩
      | some z => ⟨[FIREWALL_ZONE_DEFAULT, z], 1, false⟩ := by
  cases current_zone with
  | none => rfl
  | some z => rfl

/-- C4: whatever the stored zone and the answer of firewalld, there is at
least one candidate, the candidate at index 0 is the default label, and the
selected index is a valid index into the candidates. -/
theorem build_zone_candidates_valid (current_zone : Option String)
    (directory_zones : Option (List String)) :
    1 ≤ (build_zone_candidates current_zone directory_zones).candidates.length ∧
    (build_zone_candidates current_zone directory_zones).candidates[0]?
        = some FIREWALL_ZONE_DEFAULT ∧
    (build_zone_candidates current_zone directory_zones).selected_index
        < (build_zone_candidates current_zone directory_zones).candidates.length := by
  obtain ⟨rest, hrest⟩ := build_zone_candidates_head current_zone directory_zones
  refine ⟨?_, ?_, build_zone_candidates_index_lt current_zone directory_zones⟩
  · rw [hrest]; simp
  · rw [hrest]; simp

/-- C10, refuted as stated: with an empty string stored and the zone work
known, an extra empty candidate is appended and selected (index 2), not the
default entry. -/
theorem build_zone_candidates_empty_counterexample :
    build_zone_candidates (some "") (some ["work"]) = ⟨["Default", "work", ""], 2, true⟩ ∧
    (build_zone_candidates (some "") (some ["work"])).selected_index ≠ 0 ∧
    (build_zone_candidates (some "") (some ["work"])).candidates ≠ ["Default", "work"] := by
  decide

/-- C10, amended: when no zone is stored, whatever firewalld answers, the
selected index is 0, the default entry, and no extra candidate is appended;
an empty stored zone is a stored zone like any other: when no zone of
firewalld is empty it is appended as the final candidate and selected. -/
theorem build_zone_candidates_no_zone (directory_zones : Option (List String)) :
    (build_zone_candidates none directory_zones).selected_index = 0 ∧
    (build_zone_candidates none directory_zones).candidates
        = FIREWALL_ZONE_DEFAULT :: directory_zones.getD [] ∧
    ("" ∉ directory_zones.getD [] →
      (build_zone_candidates (some "") directory_zones).candidates
          = FIREWALL_ZONE_DEFAULT :: (directory_zones.getD [] ++ [""]) ∧
      (build_zone_candidates (some "") directory_zones).selected_index
          = 1 + (directory_zones.getD []).length) := by
  refine ⟨by rw [build_zone_candidates_eq], by rw [build_zone_candidates_eq], ?_⟩
  intro h
  have hscan := scan_zone_unknown "" (directory_zones.getD []) h
  rw [build_zone_candidates_eq]
  simp only [hscan, if_true]
  simp [Nat.add_comm]

/-- C10 amended, at firewalld answering work and public. -/
theorem build_zone_candidates_no_zone_witness :
    (build_zone_candidates none (some ["work", "public"])).selected_index = 0 ∧
    (build_zone_candidates none (some ["work", "public"])).candidates
        = ["Default", "work", "public"] ∧
    (build_zone_candidates (some "") (some ["work", "public"])).candidates
        = ["Default", "work", "public", ""] ∧
    (build_zone_candidates (some "") (some ["work", "public"])).selected_index = 3 :=
  ⟨(build_zone_candidates_no_zone (some ["work", "public"])).1,
   (build_zone_candidates_no_zone (some ["work", "public"])).2.1,
   ((build_zone_candidates_no_zone (some ["work", "public"])).2.2 (by decide)).1,
   ((build_zone_candidates_no_zone (some ["work", "public"])).2.2 (by decide)).2⟩

/-! ## Properties of the VPN selector -/

/-- Closed form of the VPN part of loading: the rows are the VPN rows of the
connection list and the index is the one kept by the scan over those rows. -/
theorem build_vpn_candidates_eq (u : Option String) (ps : List NMConnection) :
    build_vpn_candidates u ps =
      ⟨vpn_rows ps, scan_matches (fun r => g_strcmp0_eq0 u (some r.2)) (vpn_rows ps) 0 0⟩ := by
  cases u with
  | none =>
    simp [build_vpn_candidates, populate_ui_vpn, populate_vpn_loop_eq, general_private_init,
      nm_setting_connection_get_secondary]
  | some v =>
    simp [build_vpn_candidates, populate_ui_vpn, populate_vpn_loop_eq, general_private_init,
      nm_setting_connection_get_secondary]

/-- C6: the VPN candidates are exactly the profiles of type VPN, in their
original relative order, each as the pair of its id and uuid; profiles of
another type contribute nothing, and the list is the same for every
secondary uuid. -/
theorem build_vpn_candidates_filter (secondary_uuid : Option String)
    (profiles : List NMConnection) :
    (build_vpn_candidates secondary_uuid profiles).candidates
        = (profiles.filter (fun c => c.type == NM_SETTING_VPN_SETTING_NAME)).map
            (fun c => (c.id, c.uuid)) ∧
    (∀ other : Option String,
      (build_vpn_candidates other profiles).candidates
        = (build_vpn_candidates secondary_uuid profiles).candidates) := by
  refine ⟨?_, ?_⟩
  · rw [build_vpn_candidates_eq]; rfl
  · intro other
    rw [build_vpn_candidates_eq, build_vpn_candidates_eq]

/-- C6, at the profiles A (vpn), B (wifi), C (vpn). -/
theorem build_vpn_candidates_filter_witness :
    (build_vpn_candidates (some "u3")
      [⟨"A", "u1", "vpn"⟩, ⟨"B", "u2", "wifi"⟩, ⟨"C", "u3", "vpn"⟩]).candidates
        = [("A", "u1"), ("C", "u3")] :=
  (build_vpn_candidates_filter (some "u3")
    [⟨"A", "u1", "vpn"⟩, ⟨"B", "u2", "wifi"⟩, ⟨"C", "u3", "vpn"⟩]).1.trans (by decide)

/-- C9, refuted as stated: with two VPN candidates carrying the uuid u1, the
first candidate with that uuid is at position 0, yet the selected index is 1,
the position of the last one. -/
theorem build_vpn_candidates_first_counterexample :
    (build_vpn_candidates (some "u1") [⟨"A", "u1", "vpn"⟩, ⟨"B", "u1", "vpn"⟩]).candidates
        = [("A", "u1"), ("B", "u1")] ∧
    List.findIdx (fun c => c.2 == "u1")
        (build_vpn_candidates (some "u1")
          [⟨"A", "u1", "vpn"⟩, ⟨"B", "u1", "vpn"⟩]).candidates = 0 ∧
    (build_vpn_candidates (some "u1")
      [⟨"A", "u1", "vpn"⟩, ⟨"B", "u1", "vpn"⟩]).selected_index = 1 := by
  decide

/-- C9, amended: the selected index counts within the filtered VPN candidates
and is the position of the last candidate whose uuid equals the secondary
uuid (that candidate has the uuid and no later one has); when no candidate
matches, and in particular when the secondary uuid is absent, it is 0. -/
theorem build_vpn_candidates_selected (secondary_uuid : Option String)
    (profiles : List NMConnection) :
    (∀ u : String, secondary_uuid = some u →
      (∃ c ∈ (build_vpn_candidates secondary_uuid profiles).candidates, c.2 = u) →
      ((build_vpn_candidates secondary_uuid profiles).candidates[
          (build_vpn_candidates secondary_uuid profiles).selected_index]?).map Prod.snd
        = some u ∧
      ∀ q, (build_vpn_candidates secondary_uuid profiles).selected_index < q →
        ((build_vpn_candidates secondary_uuid profiles).candidates[q]?).map Prod.snd
          ≠ some u) ∧
    ((∀ c ∈ (build_vpn_candidates secondary_uuid profiles).candidates,
        some c.2 ≠ secondary_uuid) →
      (build_vpn_candidates secondary_uuid profiles).selected_index = 0) ∧
    (build_vpn_candidates none profiles).selected_index = 0 := by
  refine ⟨?_, ?_, ?_⟩
  · intro u hu hex
    subst hu
    rw [build_vpn_candidates_eq] at hex ⊢
    obtain ⟨c, hc, hcu⟩ := hex
    obtain ⟨k, _, ⟨x, hx, hpx⟩, hlast, hscan⟩ :=
      scan_matches_some (fun r : String × String => g_strcmp0_eq0 (some u) (some r.2))
        (vpn_rows profiles) 0 0 ⟨c, hc, (g_strcmp0_eq0_some u c.2).mpr hcu.symm⟩
    have hxu : u = x.2 := (g_strcmp0_eq0_some u x.2).mp hpx
    simp only [hscan, Nat.zero_add]
    refine ⟨by simp [hx, hxu], ?_⟩
    intro q hq hcontra
    cases hy : (vpn_rows profiles)[q]? with
    | none => simp [hy] at hcontra
    | some y =>
      have hyu : y.2 = u := by simpa [hy] using hcontra
      have hfalse := hlast q y hq hy
      simp only at hfalse
      rw [(g_strcmp0_eq0_some u y.2).mpr hyu.symm] at hfalse
      cases hfalse
  · intro hnone
    rw [build_vpn_candidates_eq] at hnone ⊢
    apply scan_matches_none
    intro x hx
    cases secondary_uuid with
    | none => rfl
    | some u =>
      cases hp : g_strcmp0_eq0 (some u) (some x.2) with
      | false => rfl
      | true =>
        have : u = x.2 := (g_strcmp0_eq0_some u x.2).mp hp
        exact absurd (by rw [this]) (hnone x hx)
  · rw [build_vpn_candidates_eq]
    exact scan_matches_none _ _ 0 0 (fun x _ => rfl)

/-- C9 amended, at the profiles A (vpn), B (wifi), C (vpn) with u3 stored:
the selected candidate is C, at index 1 of the filtered list. -/
theorem build_vpn_candidates_selected_witness :
    ((build_vpn_candidates (some "u3")
        [⟨"A", "u1", "vpn"⟩, ⟨"B", "u2", "wifi"⟩, ⟨"C", "u3", "vpn"⟩]).candidates[
      (build_vpn_candidates (some "u3")
        [⟨"A", "u1", "vpn"⟩, ⟨"B", "u2", "wifi"⟩, ⟨"C", "u3", "vpn"⟩]).selected_index]?).map
        Prod.snd = some "u3" :=
  ((build_vpn_candidates_selected (some "u3")
    [⟨"A", "u1", "vpn"⟩, ⟨"B", "u2", "wifi"⟩, ⟨"C", "u3", "vpn"⟩]).1 "u3" rfl
    ⟨("C", "u3"), by decide, rfl⟩).1

/-! ## Properties of `ui_to_setting` -/

/-- C5, refuted as stated: with the toggle on and the active VPN row carrying
the empty uuid, the uuid is present, yet the secondaries are left empty and
not the single empty uuid, since the library refuses an empty uuid. -/
theorem ui_to_setting_patch_counterexample :
    gtk_combo_box_get_active_uuid ⟨some 0, true⟩ [("office", "")] = some "" ∧
    (ui_to_setting
      { setting := ⟨none, ["u1"]⟩,
        firewall_zone := ⟨["Default", "trusted"], some 1, true⟩,
        dependent_vpn_checkbox := true,
        dependent_vpn := ⟨some 0, true⟩,
        dependent_vpn_store := [("office", "")] }).setting = ⟨some "trusted", []⟩ ∧
    (ui_to_setting
      { setting := ⟨none, ["u1"]⟩,
        firewall_zone := ⟨["Default", "trusted"], some 1, true⟩,
        dependent_vpn_checkbox := true,
        dependent_vpn := ⟨some 0, true⟩,
        dependent_vpn_store := [("office", "")] }).setting.secondaries ≠ [""] := by
  decide

/-- C5, amended: for every page whose active zone text is `zone_selected`,
whose toggle is `vpn_enabled` and whose active VPN row has the uuid
`vpn_uuid` (absent when no row is active), `ui_to_setting` leaves the zone
absent when `zone_selected` is the default label and equal to
`zone_selected` otherwise, and leaves the secondaries equal to the single
`vpn_uuid` when the toggle is on and the uuid is present and not empty, and
empty otherwise, whatever the setting held before. -/
theorem ui_to_setting_patch (priv : CEPageGeneralPrivate) (zone_selected : String)
    (vpn_enabled : Bool) (vpn_uuid : Option String)
    (hz : gtk_combo_box_text_get_active_text priv.firewall_zone = some zone_selected)
    (ht : priv.dependent_vpn_checkbox = vpn_enabled)
    (hu : gtk_combo_box_get_active_uuid priv.dependent_vpn priv.dependent_vpn_store
      = vpn_uuid) :
    (ui_to_setting priv).setting.zone
        = (if zone_selected = FIREWALL_ZONE_DEFAULT then none else some zone_selected) ∧
    (ui_to_setting priv).setting.secondaries
        = (if vpn_enabled = true then
            (match vpn_uuid with
             | some u => if u = "" then [] else [u]
             | none => [])
           else []) := by
  subst ht hu
  constructor
  · simp only [ui_to_setting, hz]
    have hzone : ∀ s3 s2 : NMSettingConnection, ∀ o : Option String,
        s2.zone = (if zone_selected = FIREWALL_ZONE_DEFAULT then none else some zone_selected) →
        s3 = (match o with
          | some u => nm_setting_connection_add_secondary s2 u
          | none => s2) →
        s3.zone = (if zone_selected = FIREWALL_ZONE_DEFAULT then none else some zone_selected) := by
      intro s3 s2 o h2 h3
      subst h3
      cases o with
      | none => exact h2
      | some u => exact (add_secondary_zone s2 u).trans h2
    refine hzone _ _ _ ?_ rfl
    by_cases hd : zone_selected = FIREWALL_ZONE_DEFAULT
    · simp [hd, g_strcmp0_eq0]
    · simp [hd, g_strcmp0_eq0]
  · cases hc : priv.dependent_vpn_checkbox with
    | false => simp [ui_to_setting, hc]
    | true =>
      cases hv : gtk_combo_box_get_active_uuid priv.dependent_vpn priv.dependent_vpn_store with
      | none => simp [ui_to_setting, hc, hv]
      | some u =>
        simp only [ui_to_setting, hc, hv, if_true]
        exact add_secondary_fresh _ u

/-- C5 amended, at the two examples: the default label with the toggle off and no VPN
row gives no zone and no secondaries; trusted with the toggle on and the VPN
row abc-123 active gives the zone trusted and the single secondary abc-123,
although the setting held two other secondaries before. -/
theorem ui_to_setting_patch_witness :
    (ui_to_setting
      { setting := ⟨some "work", ["x", "y"]⟩,
        firewall_zone := ⟨["Default", "trusted"], some 0, true⟩,
        dependent_vpn_checkbox := false,
        dependent_vpn := ⟨none, false⟩,
        dependent_vpn_store := [] }).setting = ⟨none, []⟩ ∧
    (ui_to_setting
      { setting := ⟨some "work", ["x", "y"]⟩,
        firewall_zone := ⟨["Default", "trusted"], some 1, true⟩,
        dependent_vpn_checkbox := true,
        dependent_vpn := ⟨some 0, true⟩,
        dependent_vpn_store := [("office", "abc-123")] }).setting
      = ⟨some "trusted", ["abc-123"]⟩ := by
  have h1 := ui_to_setting_patch
    { setting := ⟨some "work", ["x", "y"]⟩,
      firewall_zone := ⟨["Default", "trusted"], some 0, true⟩,
      dependent_vpn_checkbox := false,
      dependent_vpn := ⟨none, false⟩,
      dependent_vpn_store := [] } "Default" false none (by decide) rfl (by decide)
  have h2 := ui_to_setting_patch
    { setting := ⟨some "work", ["x", "y"]⟩,
      firewall_zone := ⟨["Default", "trusted"], some 1, true⟩,
      dependent_vpn_checkbox := true,
      dependent_vpn := ⟨some 0, true⟩,
      dependent_vpn_store := [("office", "abc-123")] } "trusted" true (some "abc-123")
      (by decide) rfl (by decide)
  constructor
  · cases hs : (ui_to_setting
      { setting := ⟨some "work", ["x", "y"]⟩,
        firewall_zone := ⟨["Default", "trusted"], some 0, true⟩,
        dependent_vpn_checkbox := false,
        dependent_vpn := ⟨none, false⟩,
        dependent_vpn_store := [] }).setting with
    | mk z secs =>
      rw [hs] at h1
      simp only [NMSettingConnection.mk.injEq]
      exact ⟨h1.1.trans (by decide), h1.2.trans (by decide)⟩
  · cases hs : (ui_to_setting
      { setting := ⟨some "work", ["x", "y"]⟩,
        firewall_zone := ⟨["Default", "trusted"], some 1, true⟩,
        dependent_vpn_checkbox := true,
        dependent_vpn := ⟨some 0, true⟩,
        dependent_vpn_store := [("office", "abc-123")] }).setting with
    | mk z secs =>
      rw [hs] at h2
      simp only [NMSettingConnection.mk.injEq]
      exact ⟨h2.1.trans (by decide), h2.2.trans (by decide)⟩

/-! ## Loading a profile and saving it without an edit -/

/-- The page after `finish_setup` on a fresh page, in terms of the two
candidate computations. -/
theorem finish_setup_fresh (profile : NMSettingConnection) (zones : Option (List String))
    (con_list : List NMConnection) :
    finish_setup (general_private_init profile) false zones con_list =
      { setting := profile,
        firewall_zone :=
          { items := (build_zone_candidates profile.zone zones).candidates,
            active := gtk_combo_box_set_active
              (build_zone_candidates profile.zone zones).candidates.length
              (build_zone_candidates profile.zone zones).selected_index,
            sensitive := zones.isSome },
        dependent_vpn_checkbox := (profile.secondaries.length != 0),
        dependent_vpn :=
          { active := gtk_combo_box_set_active (vpn_rows con_list).length
              (scan_matches (fun r => g_strcmp0_eq0 profile.secondaries[0]? (some r.2))
                (vpn_rows con_list) 0 0),
            sensitive := (profile.secondaries.length != 0) },
        dependent_vpn_store := vpn_rows con_list } := by
  simp [finish_setup, populate_ui, populate_ui_zone, populate_ui_vpn, build_zone_candidates,
    general_private_init, populate_vpn_loop_eq, nm_setting_connection_get_secondary,
    nm_setting_connection_get_num_secondaries, nm_setting_connection_get_zone]

/-- The candidate at the selected index is the stored zone, or the default
label when no zone is stored. -/
theorem build_zone_candidates_selected_text (cz : Option String)
    (dz : Option (List String)) :
    (build_zone_candidates cz dz).candidates[(build_zone_candidates cz dz).selected_index]?
      = some (cz.getD FIREWALL_ZONE_DEFAULT) := by
  rw [build_zone_candidates_eq]
  cases cz with
  | none => simp
  | some z =>
    by_cases hz : z ∈ dz.getD []
    · obtain ⟨p, _, hat, _, hscan⟩ := scan_zone_known z (dz.getD []) hz
      have hne : ¬ (1 + p = 0) := by omega
      simp only [hscan, hne, if_false]
      simp only [Option.getD_some, Nat.add_comm 1 p, List.getElem?_cons_succ, hat]
    · have hscan := scan_zone_unknown z (dz.getD []) hz
      simp only [hscan, if_true, Option.getD_some]
      simp

/-- The active zone text of a freshly loaded page. -/
theorem loaded_active_text (profile : NMSettingConnection) (zones : Option (List String))
    (con_list : List NMConnection) :
    gtk_combo_box_text_get_active_text
        (finish_setup (general_private_init profile) false zones con_list).firewall_zone
      = some (profile.zone.getD FIREWALL_ZONE_DEFAULT) := by
  rw [finish_setup_fresh]
  have hlt := build_zone_candidates_index_lt profile.zone zones
  simp only [gtk_combo_box_text_get_active_text, gtk_combo_box_set_active, hlt, if_true]
  exact build_zone_candidates_selected_text profile.zone zones

/-- The zone written back by load then save: the stored zone, unless it is
the default label, which is written back as absent. -/
theorem load_then_save_zone (profile : NMSettingConnection) (zones : Option (List String))
    (con_list : List NMConnection) :
    (load_then_save profile zones con_list).zone
      = (if profile.zone = some FIREWALL_ZONE_DEFAULT then none else profile.zone) := by
  have htext := loaded_active_text profile zones con_list
  have hsec : ∀ (s2 : NMSettingConnection) (o : Option String),
      (match o with
        | some u => nm_setting_connection_add_secondary s2 u
        | none => s2).zone = s2.zone := by
    intro s2 o
    cases o with
    | none => rfl
    | some u => exact add_secondary_zone s2 u
  simp only [load_then_save, ui_to_setting, hsec, htext]
  cases hz : profile.zone with
  | none => simp [g_strcmp0_eq0]
  | some z =>
    by_cases hd : z = FIREWALL_ZONE_DEFAULT
    · simp [g_strcmp0_eq0, hd]
    · simp [g_strcmp0_eq0, hd]

/-- The secondaries written back by load then save when none is stored. -/
theorem load_then_save_no_secondary (profile : NMSettingConnection)
    (zones : Option (List String)) (con_list : List NMConnection)
    (h : profile.secondaries = []) :
    (load_then_save profile zones con_list).secondaries = [] := by
  simp [load_then_save, ui_to_setting, finish_setup_fresh, h]

/-- The secondaries written back by load then save when exactly one is stored
and it is the non-empty uuid of a known VPN connection. -/
theorem load_then_save_one_secondary (profile : NMSettingConnection)
    (zones : Option (List String)) (con_list : List NMConnection) (c : NMConnection)
    (hc : c ∈ con_list) (ht : c.type = NM_SETTING_VPN_SETTING_NAME)
    (hne : c.uuid ≠ "") (h : profile.secondaries = [c.uuid]) :
    (load_then_save profile zones con_list).secondaries = [c.uuid] := by
  have hrow : (c.id, c.uuid) ∈ vpn_rows con_list := by
    simp only [vpn_rows, List.mem_map, List.mem_filter]
    exact ⟨c, ⟨hc, by simp [nm_connection_is_type, ht]⟩, rfl⟩
  obtain ⟨k, hk, ⟨x, hx, hpx⟩, _, hscan⟩ :=
    scan_matches_some (fun r : String × String => g_strcmp0_eq0 (some c.uuid) (some r.2))
      (vpn_rows con_list) 0 0 ⟨(c.id, c.uuid), hrow, (g_strcmp0_eq0_some _ _).mpr rfl⟩
  have hxu : x.2 = c.uuid := ((g_strcmp0_eq0_some c.uuid x.2).mp hpx).symm
  simp [load_then_save, ui_to_setting, finish_setup_fresh, h, hscan,
    gtk_combo_box_set_active, hk, gtk_combo_box_get_active_uuid, hx,
    nm_setting_connection_add_secondary, hxu, hne]

/-- C7, refuted as stated: a stored zone spelled like the default label is
written back as absent; of two stored secondaries only one is written back;
a stored secondary that is no known VPN is replaced by the first VPN
candidate, or dropped when there is no candidate; a stored empty uuid is
dropped even when a known VPN carries it. -/
theorem load_then_save_counterexample :
    load_then_save ⟨some "Default", []⟩ (some ["work"]) [] = ⟨none, []⟩ ∧
    load_then_save ⟨none, ["u1", "u3"]⟩ none [⟨"A", "u1", "vpn"⟩, ⟨"C", "u3", "vpn"⟩]
      = ⟨none, ["u1"]⟩ ∧
    load_then_save ⟨none, ["u9"]⟩ none [⟨"A", "u1", "vpn"⟩] = ⟨none, ["u1"]⟩ ∧
    load_then_save ⟨none, ["u9"]⟩ none [⟨"B", "u2", "wifi"⟩] = ⟨none, []⟩ ∧
    load_then_save ⟨none, [""]⟩ none [⟨"A", "", "vpn"⟩] = ⟨none, []⟩ := by
  decide

/-- C7, amended: for every profile whose zone is absent or differs from the
default label and whose secondaries are either empty or exactly one uuid
that is not empty and is the uuid of a known profile of type VPN, for every answer of
firewalld and every list of known profiles, loading the profile and saving
it without an edit gives back the zone and the secondaries of the profile. -/
theorem load_then_save_roundtrip (profile : NMSettingConnection)
    (zones : Option (List String)) (con_list : List NMConnection)
    (hz : profile.zone ≠ some FIREWALL_ZONE_DEFAULT)
    (hs : profile.secondaries = [] ∨
      ∃ c ∈ con_list, c.type = NM_SETTING_VPN_SETTING_NAME ∧ c.uuid ≠ "" ∧
        profile.secondaries = [c.uuid]) :
    load_then_save profile zones con_list = profile := by
  have hzone := load_then_save_zone profile zones con_list
  rw [if_neg hz] at hzone
  have hsec : (load_then_save profile zones con_list).secondaries = profile.secondaries := by
    rcases hs with h | ⟨c, hc, ht, hne, h⟩
    · rw [load_then_save_no_secondary profile zones con_list h, h]
    · rw [load_then_save_one_secondary profile zones con_list c hc ht hne h, h]
  cases hl : load_then_save profile zones con_list with
  | mk z secs =>
    rw [hl] at hzone hsec
    cases profile with
    | mk pz psecs =>
      simp only at hzone hsec
      rw [hzone, hsec]

/-- C7 amended, at the zone home unknown to firewalld and the secondary u3 of
the known VPN profile C. -/
theorem load_then_save_roundtrip_witness :
    load_then_save ⟨some "home", ["u3"]⟩ (some ["work", "public"])
        [⟨"A", "u1", "vpn"⟩, ⟨"B", "u2", "wifi"⟩, ⟨"C", "u3", "vpn"⟩]
      = ⟨some "home", ["u3"]⟩ :=
  load_then_save_roundtrip ⟨some "home", ["u3"]⟩ (some ["work", "public"])
    [⟨"A", "u1", "vpn"⟩, ⟨"B", "u2", "wifi"⟩, ⟨"C", "u3", "vpn"⟩] (by decide)
    (Or.inr ⟨⟨"C", "u3", "vpn"⟩, by decide, by decide, by decide, rfl⟩)

/-- C8, refuted as stated: the stored zone spelled like the default label is
unknown to firewalld, is appended and selected, and is written back as
absent by a save without an edit. -/
theorem unknown_zone_counterexample :
    "Default" ∉ ["work"] ∧
    build_zone_candidates (some "Default") (some ["work"])
      = ⟨["Default", "work", "Default"], 2, true⟩ ∧
    (load_then_save ⟨some "Default", []⟩ (some ["work"]) []).zone = none ∧
    (load_then_save ⟨some "Default", []⟩ none []).zone = none := by
  decide

/-- C8, amended: for every stored zone that differs from the default label
and is not among the zones of firewalld (firewalld reachable or not), the
stored zone is kept as the final candidate, after the default label and the
zones of firewalld, it is the selected candidate, and loading then saving
without an edit writes back exactly the stored zone. -/
theorem unknown_zone_preserved (stored_zone : String) (zones : Option (List String))
    (secondaries : List String) (con_list : List NMConnection)
    (hd : stored_zone ≠ FIREWALL_ZONE_DEFAULT)
    (hu : ∀ zs, zones = some zs → stored_zone ∉ zs) :
    (build_zone_candidates (some stored_zone) zones).candidates
        = FIREWALL_ZONE_DEFAULT :: (zones.getD [] ++ [stored_zone]) ∧
    (build_zone_candidates (some stored_zone) zones).candidates[
        (build_zone_candidates (some stored_zone) zones).selected_index]?
        = some stored_zone ∧
    (load_then_save ⟨some stored_zone, secondaries⟩ zones con_list).zone
        = some stored_zone := by
  have hnot : stored_zone ∉ zones.getD [] := by
    cases zones with
    | none => simp
    | some zs => exact hu zs rfl
  have hscan := scan_zone_unknown stored_zone (zones.getD []) hnot
  refine ⟨?_, build_zone_candidates_selected_text (some stored_zone) zones, ?_⟩
  · rw [build_zone_candidates_eq]
    simp only [hscan, if_true]
  · rw [load_then_save_zone]
    have hne : (some stored_zone : Option String) ≠ some FIREWALL_ZONE_DEFAULT := by
      intro h; exact hd (Option.some.inj h)
    simp only [hne, if_false]

/-- C8 amended, at the zone home with firewalld answering work and public. -/
theorem unknown_zone_preserved_witness :
    (build_zone_candidates (some "home") (some ["work", "public"])).candidates
        = FIREWALL_ZONE_DEFAULT :: ((some ["work", "public"]).getD [] ++ ["home"]) ∧
    (build_zone_candidates (some "home") (some ["work", "public"])).candidates[
        (build_zone_candidates (some "home") (some ["work", "public"])).selected_index]?
        = some "home" ∧
    (load_then_save ⟨some "home", ["u1", "u2"]⟩ (some ["work", "public"]) []).zone
        = some "home" :=
  unknown_zone_preserved "home" (some ["work", "public"]) ["u1", "u2"] [] (by decide)
    (by intro zs h; cases h; decide)

end PageGeneral
